import Mathlib

/-!
# Verification of the libosrmc C binding layer

A shallow embedding of `src/libosrmc/osrmc.cc` / `osrmc.h`: the error-record
carrier, the per-coordinate parameter marshaller, the shared service
dispatcher, the tile dispatcher, and the FlatBuffer transfer helper.

Modelling conventions:
* C pointers that may be null become `Option`; a null handle is `none`.
* The caller's error slot (`osrmc_error_t` stored through the `osrmc_error_t*`
  out-parameter) is an `ErrorSlot`.  Every operation takes the flag
  `errPtr : Bool` saying whether the out-parameter pointer itself is non-null,
  together with the current slot content, and returns the slot content after
  the call, exactly as `osrmc_set_error` manipulates it.
* `double` values that the binding merely stores or sign-tests (coordinates,
  radiuses) are modelled as `ℚ`; the only arithmetic the binding performs on
  them is the comparison `radius >= 0.0`.
* `short` casts (`static_cast<short>` on bearing value/range) are modelled by
  `toShort`, two's-complement truncation to 16 bits.
* The engine (OSRM backend) is external: a service dispatch receives the
  engine's outcome — a status together with the result union it produced — as
  an explicit argument.
-/

namespace Osrmc

/-! ## Error carrier (`struct osrmc_error`, `osrmc_set_error`) -/

/-- Mirrors `struct osrmc_error`: a code string and a message string. -/
structure ErrorRecord where
  code : String
  message : String
deriving DecidableEq, Repr

/-- Content of the caller's error slot: the `osrmc_error_t` value currently
stored there (`none` = null / nothing stored yet). -/
abbrev ErrorSlot := Option ErrorRecord

/-- Mirrors `osrmc_set_error`: when the out-parameter pointer is non-null
(`errPtr = true`), a freshly allocated record is stored through the slot;
otherwise nothing happens. -/
def osrmc_set_error (errPtr : Bool) (slot : ErrorSlot) (code message : String) : ErrorSlot :=
  if errPtr then some ⟨code, message⟩ else slot

/-! ## ABI version surface (`osrmc.h` lines 152–157, `osrmc.cc` lines 38–46) -/

/-- `#define OSRMC_VERSION_MAJOR 6` -/
def OSRMC_VERSION_MAJOR : Nat := 6

/-- `#define OSRMC_VERSION_MINOR 0` -/
def OSRMC_VERSION_MINOR : Nat := 0

/-- `#define OSRMC_VERSION ((OSRMC_VERSION_MAJOR << 16) | OSRMC_VERSION_MINOR)` -/
def OSRMC_VERSION : Nat := (OSRMC_VERSION_MAJOR <<< 16) ||| OSRMC_VERSION_MINOR

/-- Mirrors `osrmc_get_version`. -/
def osrmc_get_version : Nat := OSRMC_VERSION

/-- Mirrors `osrmc_is_abi_compatible`:
`osrmc_get_version() >> 16u == OSRMC_VERSION_MAJOR`. -/
def osrmc_is_abi_compatible : Bool := osrmc_get_version >>> 16 == OSRMC_VERSION_MAJOR

/-! ## Config (`osrmc_config_construct`) -/

/-- Mirrors the fields of `osrm::EngineConfig` that `osrmc_config_construct`
touches.  `storage_config` records the base path the storage configuration was
derived from (`none` = the default, path-less storage config). -/
structure EngineConfig where
  storage_config : Option String := none
  use_shared_memory : Bool := true
deriving DecidableEq, Repr

/-- Mirrors `osrmc_config_construct` (osrmc.cc lines 219–234): a null
`base_path` turns shared-memory mode on; a non-null path derives the storage
config from the path and turns shared-memory mode off. -/
def osrmc_config_construct (base_path : Option String) (_errPtr : Bool) (slot : ErrorSlot) :
    Option EngineConfig × ErrorSlot :=
  match base_path with
  | some p => (some { storage_config := some p, use_shared_memory := false }, slot)
  | none => (some { storage_config := none, use_shared_memory := true }, slot)

/-! ## Base parameters (`osrm::engine::api::BaseParameters` as used by the binding) -/

/-- Mirrors `osrm::Bearing`: a value and a range (both `short` in the engine). -/
structure Bearing where
  bearing : Int
  range : Int
deriving DecidableEq, Repr

/-- `static_cast<short>` : two's-complement truncation of an `int` to 16 bits. -/
def toShort (x : Int) : Int :=
  (x + 2 ^ 15) % 2 ^ 16 - 2 ^ 15

/-- Mirrors `osrm::engine::Approach` (curb, unrestricted, opposite). -/
inductive Approach where
  | curb
  | unrestricted
  | opposite
deriving DecidableEq, Repr

/-- Mirrors `osrm::engine::api::BaseParameters::SnappingType`. -/
inductive SnappingType where
  | snapDefault
  | snapAny
deriving DecidableEq, Repr

/-- A geographic coordinate: longitude and latitude as stored by the binding. -/
structure Coordinate where
  lon : ℚ
  lat : ℚ
deriving DecidableEq, Repr

/-- A hint token.  The engine's `Hint::FromBase64` / `ToBase64` round-trip is
external; the binding treats the token opaquely, so a hint is modelled as the
base-64 text itself. -/
abbrev Hint := String

/-- The fields of `osrm::engine::api::BaseParameters` that the modelled
operations read or write. -/
structure BaseParameters where
  coordinates : List Coordinate := []
  radiuses : List (Option ℚ) := []
  bearings : List (Option Bearing) := []
  approaches : List (Option Approach) := []
  hints : List (Option Hint) := []
  snapping : SnappingType := .snapDefault
deriving DecidableEq, Repr

/-- `std::vector::resize(n)` in the grow-only way the setters use it:
`if (vec.size() < n) vec.resize(n)`; new slots hold the disengaged optional. -/
def padTo (v : List (Option α)) (n : Nat) : List (Option α) :=
  if v.length < n then v ++ List.replicate (n - v.length) none else v

/-! ## Coordinate appends (osrmc.cc lines 801–812 and 857–876) -/

/-- Mirrors `osrmc_params_add_coordinate`: appends `(lon, lat)` to the
coordinate vector; null params fail `"InvalidArgument"`. -/
def osrmc_params_add_coordinate (params : Option BaseParameters) (longitude latitude : ℚ)
    (errPtr : Bool) (slot : ErrorSlot) : Option BaseParameters × ErrorSlot :=
  match params with
  | none => (none, osrmc_set_error errPtr slot "InvalidArgument" "Params must not be null")
  | some p =>
    (some { p with coordinates := p.coordinates ++ [⟨longitude, latitude⟩] }, slot)

/-- Mirrors `osrmc_params_add_coordinate_with`: appends the coordinate then
`emplace_back`s the radius onto `radiuses` and the (short-cast) bearing onto
`bearings`.  No other vector is touched and no resize happens. -/
def osrmc_params_add_coordinate_with (params : Option BaseParameters)
    (longitude latitude radius : ℚ) (bearing range : Int)
    (errPtr : Bool) (slot : ErrorSlot) : Option BaseParameters × ErrorSlot :=
  match params with
  | none => (none, osrmc_set_error errPtr slot "InvalidArgument" "Params must not be null")
  | some p =>
    (some { p with
        coordinates := p.coordinates ++ [⟨longitude, latitude⟩],
        radiuses := p.radiuses ++ [some radius],
        bearings := p.bearings ++ [some ⟨toShort bearing, toShort range⟩] }, slot)

/-! ## Positional per-coordinate setters (osrmc.cc lines 878–905, 937–960, 991–1019, 1052–1090) -/

/-- Mirrors `osrmc_params_set_hint`: bounds-checks the index, grows the hint
vector to the coordinate count, then stores the parsed hint (or the disengaged
optional when the caller passed a null hint). -/
def osrmc_params_set_hint (params : Option BaseParameters) (coordinate_index : Nat)
    (hint_base64 : Option String) (errPtr : Bool) (slot : ErrorSlot) :
    Option BaseParameters × ErrorSlot :=
  match params with
  | none => (none, osrmc_set_error errPtr slot "InvalidArgument" "Params must not be null")
  | some p =>
    if coordinate_index ≥ p.coordinates.length then
      (some p, osrmc_set_error errPtr slot "InvalidCoordinateIndex" "Hint index out of bounds")
    else
      let hints := padTo p.hints p.coordinates.length
      match hint_base64 with
      | some h => (some { p with hints := hints.set coordinate_index (some h) }, slot)
      | none => (some { p with hints := hints.set coordinate_index none }, slot)

/-- Mirrors `osrmc_params_set_radius`: bounds-checks the index, grows the
radius vector to the coordinate count, then stores the radius when
`radius >= 0.0` and the disengaged optional otherwise. -/
def osrmc_params_set_radius (params : Option BaseParameters) (coordinate_index : Nat)
    (radius : ℚ) (errPtr : Bool) (slot : ErrorSlot) : Option BaseParameters × ErrorSlot :=
  match params with
  | none => (none, osrmc_set_error errPtr slot "InvalidArgument" "Params must not be null")
  | some p =>
    if coordinate_index ≥ p.coordinates.length then
      (some p, osrmc_set_error errPtr slot "InvalidCoordinateIndex" "Radius index out of bounds")
    else
      let radiuses := padTo p.radiuses p.coordinates.length
      if radius ≥ 0 then
        (some { p with radiuses := radiuses.set coordinate_index (some radius) }, slot)
      else
        (some { p with radiuses := radiuses.set coordinate_index none }, slot)

/-- Mirrors `osrmc_params_set_bearing`: bounds-checks the index, grows the
bearing vector to the coordinate count, then stores the disengaged optional on
a negative value or range and the short-cast bearing otherwise. -/
def osrmc_params_set_bearing (params : Option BaseParameters) (coordinate_index : Nat)
    (value range : Int) (errPtr : Bool) (slot : ErrorSlot) :
    Option BaseParameters × ErrorSlot :=
  match params with
  | none => (none, osrmc_set_error errPtr slot "InvalidArgument" "Params must not be null")
  | some p =>
    if coordinate_index ≥ p.coordinates.length then
      (some p, osrmc_set_error errPtr slot "InvalidCoordinateIndex" "Bearing index out of bounds")
    else
      let bearings := padTo p.bearings p.coordinates.length
      if value < 0 ∨ range < 0 then
        (some { p with bearings := bearings.set coordinate_index none }, slot)
      else
        (some { p with
            bearings := bearings.set coordinate_index
              (some ⟨toShort value, toShort range⟩) }, slot)

/-- The `approach_t` enumerator constants from the header. -/
def APPROACH_CURB : Int := 0

def APPROACH_UNRESTRICTED : Int := 1

def APPROACH_OPPOSITE : Int := 2

/-- Mirrors `osrmc_params_set_approach`: bounds-checks the index, grows the
approach vector to the coordinate count, translates the enumerator through the
`switch` — whose `default` arm yields the disengaged optional rather than an
error — and stores the result.  The C enum argument may carry any `int`. -/
def osrmc_params_set_approach (params : Option BaseParameters) (coordinate_index : Nat)
    (approach : Int) (errPtr : Bool) (slot : ErrorSlot) :
    Option BaseParameters × ErrorSlot :=
  match params with
  | none => (none, osrmc_set_error errPtr slot "InvalidArgument" "Params must not be null")
  | some p =>
    if coordinate_index ≥ p.coordinates.length then
      (some p, osrmc_set_error errPtr slot "InvalidCoordinateIndex" "Approach index out of bounds")
    else
      let approaches := padTo p.approaches p.coordinates.length
      let approach_value : Option Approach :=
        if approach = APPROACH_CURB then some .curb
        else if approach = APPROACH_UNRESTRICTED then some .unrestricted
        else if approach = APPROACH_OPPOSITE then some .opposite
        else none
      (some { p with approaches := approaches.set coordinate_index approach_value }, slot)

/-- The `snapping_t` enumerator constants from the header. -/
def SNAPPING_DEFAULT : Int := 0

def SNAPPING_ANY : Int := 1

/-- Mirrors `osrmc_params_set_snapping` (osrmc.cc lines 1243–1263): unlike the
approach setter, the `default` arm of its `switch` reports `"InvalidSnapping"`
and leaves the parameters untouched. -/
def osrmc_params_set_snapping (params : Option BaseParameters) (snapping : Int)
    (errPtr : Bool) (slot : ErrorSlot) : Option BaseParameters × ErrorSlot :=
  match params with
  | none => (none, osrmc_set_error errPtr slot "InvalidArgument" "Params must not be null")
  | some p =>
    if snapping = SNAPPING_DEFAULT then
      (some { p with snapping := .snapDefault }, slot)
    else if snapping = SNAPPING_ANY then
      (some { p with snapping := .snapAny }, slot)
    else
      (some p, osrmc_set_error errPtr slot "InvalidSnapping" "Unknown snapping type")

/-! ## Alternatives setters (osrmc.cc lines 1606–1617, 2340–2351, 2927–2938) -/

/-- The fields of `osrm::RouteParameters` exercised by the modelled
operations. -/
structure RouteParameters where
  alternatives : Bool := false
  number_of_alternatives : Nat := 0
deriving DecidableEq, Repr

/-- The fields of `osrm::MatchParameters` exercised by the modelled
operations. -/
structure MatchParameters where
  alternatives : Bool := false
  number_of_alternatives : Nat := 0
deriving DecidableEq, Repr

/-- The fields of `osrm::TripParameters` exercised by the modelled
operations. -/
structure TripParameters where
  alternatives : Bool := false
  number_of_alternatives : Nat := 0
deriving DecidableEq, Repr

/-- Mirrors `osrmc_route_params_set_number_of_alternatives`: stores the count
and overwrites the boolean `alternatives` flag with `count > 0`. -/
def osrmc_route_params_set_number_of_alternatives (params : Option RouteParameters)
    (count : Nat) (errPtr : Bool) (slot : ErrorSlot) : Option RouteParameters × ErrorSlot :=
  match params with
  | none => (none, osrmc_set_error errPtr slot "InvalidArgument" "Params must not be null")
  | some p =>
    (some { p with number_of_alternatives := count, alternatives := count > 0 }, slot)

/-- Mirrors `osrmc_match_params_set_number_of_alternatives`. -/
def osrmc_match_params_set_number_of_alternatives (params : Option MatchParameters)
    (count : Nat) (errPtr : Bool) (slot : ErrorSlot) : Option MatchParameters × ErrorSlot :=
  match params with
  | none => (none, osrmc_set_error errPtr slot "InvalidArgument" "Params must not be null")
  | some p =>
    (some { p with number_of_alternatives := count, alternatives := count > 0 }, slot)

/-- Mirrors `osrmc_trip_params_set_number_of_alternatives`. -/
def osrmc_trip_params_set_number_of_alternatives (params : Option TripParameters)
    (count : Nat) (errPtr : Bool) (slot : ErrorSlot) : Option TripParameters × ErrorSlot :=
  match params with
  | none => (none, osrmc_set_error errPtr slot "InvalidArgument" "Params must not be null")
  | some p =>
    (some { p with number_of_alternatives := count, alternatives := count > 0 }, slot)

/-! ## Result union and JSON error documents -/

/-- The alternatives of `osrm::json::Value` that the dispatcher inspects via
`std::get<osrm::json::String>`: either the `String` alternative or any other
one.  A default-constructed `Value` holds the empty `String`. -/
inductive JsonVal where
  | str (s : String)
  | nonString
deriving DecidableEq, Repr

/-- Mirrors `osrm::json::Object`: a map from keys to values (association
list). -/
structure JsonObject where
  values : List (String × JsonVal) := []
deriving DecidableEq, Repr

/-- `json.values["k"]`: map indexing; a missing key default-inserts a
default-constructed `Value`, i.e. the empty `String`. -/
def jsonIndex (o : JsonObject) (k : String) : JsonVal :=
  (o.values.lookup k).getD (.str "")

/-- `std::get<osrm::json::String>`: returns the string when the value holds
the `String` alternative and throws `std::bad_variant_access` otherwise
(modelled as `none`). -/
def getJsonString : JsonVal → Option String
  | .str s => some s
  | .nonString => none

/-- Mirrors `flatbuffers::FlatBufferBuilder` as the transfer helper sees it:
`ReleaseRaw` yields the raw buffer (`buf`, of size `buf.length`) and the start
offset of the finished data within it. -/
structure FlatBufferBuilder where
  buf : List Nat := []
  offset : Nat := 0
deriving DecidableEq, Repr

/-- Mirrors `osrm::engine::api::ResultT`:
`std::variant<json::Object, flatbuffers::FlatBufferBuilder, std::string>`. -/
inductive ResultT where
  | json (o : JsonObject)
  | flatbuffer (b : FlatBufferBuilder)
  | str (s : String)
deriving DecidableEq, Repr

/-- Mirrors `osrm::Status`. -/
inductive Status where
  | ok
  | error
deriving DecidableEq, Repr

/-- Mirrors `struct osrmc_response`: owns one result union value. -/
structure Response where
  result : ResultT
deriving DecidableEq, Repr

/-! ## Service dispatcher (osrmc.cc lines 164–215) -/

/-- Mirrors `osrmc_service_helper`.  The engine call is external: `engine` is
the status it returned together with the result union it left behind
(overwriting the seeded empty builder).  On a non-ok status the error document
is translated — `std::get` throwing on a wrong-shaped field falls into the
inner `catch (...)`, which produces the service-specific fallback record with
message `"Request failed"`. -/
def osrmc_service_helper (osrm paramsNonNull : Bool) (engine : Status × ResultT)
    (error_name : String) (errPtr : Bool) (slot : ErrorSlot) :
    Option Response × ErrorSlot :=
  if osrm = false then
    (none, osrmc_set_error errPtr slot "InvalidArgument" "OSRM instance must not be null")
  else if paramsNonNull = false then
    (none, osrmc_set_error errPtr slot "InvalidArgument" "Params must not be null")
  else
    match engine with
    | (.ok, result) => (some ⟨result⟩, slot)
    | (.error, result) =>
      if errPtr then
        match result with
        | .json o =>
          match getJsonString (jsonIndex o "code"), getJsonString (jsonIndex o "message") with
          | some code, some message =>
            (none, osrmc_set_error errPtr slot
              (if code = "" then "Unknown" else code) message)
          | _, _ => (none, osrmc_set_error errPtr slot error_name "Request failed")
        | _ => (none, osrmc_set_error errPtr slot error_name "Request failed")
      else (none, slot)

/-- Mirrors `osrmc_nearest` (osrmc.cc lines 1337–1345). -/
def osrmc_nearest (osrm paramsNonNull : Bool) (engine : Status × ResultT)
    (errPtr : Bool) (slot : ErrorSlot) : Option Response × ErrorSlot :=
  osrmc_service_helper osrm paramsNonNull engine "NearestError" errPtr slot

/-- Mirrors `osrmc_route` (osrmc.cc lines 1730–1738). -/
def osrmc_route (osrm paramsNonNull : Bool) (engine : Status × ResultT)
    (errPtr : Bool) (slot : ErrorSlot) : Option Response × ErrorSlot :=
  osrmc_service_helper osrm paramsNonNull engine "RouteError" errPtr slot

/-- Mirrors `osrmc_table` (osrmc.cc lines 2072–2080). -/
def osrmc_table (osrm paramsNonNull : Bool) (engine : Status × ResultT)
    (errPtr : Bool) (slot : ErrorSlot) : Option Response × ErrorSlot :=
  osrmc_service_helper osrm paramsNonNull engine "TableError" errPtr slot

/-- Mirrors `osrmc_match` (osrmc.cc lines 2571–2579). -/
def osrmc_match (osrm paramsNonNull : Bool) (engine : Status × ResultT)
    (errPtr : Bool) (slot : ErrorSlot) : Option Response × ErrorSlot :=
  osrmc_service_helper osrm paramsNonNull engine "MatchError" errPtr slot

/-- Mirrors `osrmc_trip` (osrmc.cc lines 3048–3056). -/
def osrmc_trip (osrm paramsNonNull : Bool) (engine : Status × ResultT)
    (errPtr : Bool) (slot : ErrorSlot) : Option Response × ErrorSlot :=
  osrmc_service_helper osrm paramsNonNull engine "TripError" errPtr slot

/-- The `what()` text of `std::bad_variant_access` is implementation-defined;
one fixed string stands for it. -/
def badVariantAccessMsg : String := "bad variant access"

/-- Mirrors `osrmc_tile` (osrmc.cc lines 3201–3241).  On ok status the holder
is unwrapped with `std::get<std::string>`; a throw there reaches the outer
catch and yields an `"Exception"` record.  On a non-ok status: a structured
document is translated (a throw from `std::get<String>` reaches the outer
catch, there being no inner try), otherwise the fallback record
`("TileError", "Failed to generate tile")` is produced. -/
def osrmc_tile (osrm paramsNonNull : Bool) (engine : Status × ResultT)
    (errPtr : Bool) (slot : ErrorSlot) : Option String × ErrorSlot :=
  if osrm = false then
    (none, osrmc_set_error errPtr slot "InvalidArgument" "OSRM instance must not be null")
  else if paramsNonNull = false then
    (none, osrmc_set_error errPtr slot "InvalidArgument" "Params must not be null")
  else
    match engine with
    | (.ok, .str s) => (some s, slot)
    | (.ok, _) => (none, osrmc_set_error errPtr slot "Exception" badVariantAccessMsg)
    | (.error, result) =>
      match result with
      | .json o =>
        if errPtr then
          match getJsonString (jsonIndex o "code"), getJsonString (jsonIndex o "message") with
          | some code, some message =>
            (none, osrmc_set_error errPtr slot
              (if code = "" then "Unknown" else code) message)
          | _, _ => (none, osrmc_set_error errPtr slot "Exception" badVariantAccessMsg)
        else (none, slot)
      | _ => (none, osrmc_set_error errPtr slot "TileError" "Failed to generate tile")

/-! ## FlatBuffer transfer (osrmc.cc lines 92–161 and 1746–1776) -/

/-- The caller-visible outputs of a transfer call, for a caller whose `data`,
`size` and `deleter` out-pointers are non-null.  `deleter = some ()` stands
for `osrmc_free_deleter`; `rawFreed` records whether the helper itself called
`std::free` on the raw buffer (as opposed to handing it to the caller). -/
structure TransferOut where
  data : Option (List Nat)
  size : Nat
  deleter : Option Unit
  rawFreed : Bool
deriving DecidableEq, Repr

/-- The empty structured document `osrm::json::Object()`. -/
def emptyJson : ResultT := .json ⟨[]⟩

/-- Mirrors `osrmc_transfer_flatbuffer_helper`.  `allocOk` is the outcome of
the `std::malloc` on the copy path.  Returns the caller-visible outputs, the
result union left in the response, and the error slot. -/
def osrmc_transfer_flatbuffer_helper (result : ResultT) (allocOk errPtr : Bool)
    (slot : ErrorSlot) : TransferOut × ResultT × ErrorSlot :=
  match result with
  | .flatbuffer b =>
    let buffer_size := b.buf.length
    let buffer_offset := b.offset
    if buffer_offset = 0 then
      ({ data := some b.buf, size := buffer_size, deleter := some (), rawFreed := false },
        emptyJson, slot)
    else if allocOk then
      ({ data := some (b.buf.drop buffer_offset), size := buffer_size - buffer_offset,
         deleter := some (), rawFreed := true }, emptyJson, slot)
    else
      -- the early return skips the final `resp->result = osrm::json::Object()`;
      -- the union still holds the (released) builder alternative
      ({ data := none, size := 0, deleter := none, rawFreed := true },
        .flatbuffer {},
        osrmc_set_error errPtr slot "MemoryError" "Failed to allocate memory for FlatBuffer data")
  | r =>
    ({ data := none, size := 0, deleter := none, rawFreed := false }, r,
      osrmc_set_error errPtr slot "InvalidFormat" "Response is not in FlatBuffer format")

/-- Mirrors `osrmc_route_response_transfer_flatbuffer` for a caller passing
non-null `data`, `size` and `deleter` out-pointers (the null out-pointer
branch only writes an `"InvalidArgument"` record). -/
def osrmc_route_response_transfer_flatbuffer (response : Option Response)
    (allocOk errPtr : Bool) (slot : ErrorSlot) :
    Option Response × TransferOut × ErrorSlot :=
  match response with
  | none =>
    (none, { data := none, size := 0, deleter := none, rawFreed := false },
      osrmc_set_error errPtr slot "InvalidArgument" "Response must not be null")
  | some resp =>
    match osrmc_transfer_flatbuffer_helper resp.result allocOk errPtr slot with
    | (out, result, slot') => (some ⟨result⟩, out, slot')

/-! ## Concrete inputs used by witnesses and counterexamples -/

/-- A parameter handle holding one coordinate, used as a concrete input. -/
def oneCoordParams : BaseParameters :=
  { coordinates := [⟨13, 52⟩] }

/-- A parameter handle holding two coordinates, used as a concrete input. -/
def twoCoordParams : BaseParameters :=
  { coordinates := [⟨13, 52⟩, ⟨14, 53⟩] }

/-! # Theorems -/

/-! ## Facts about the grow-only resize -/

theorem padTo_length (v : List (Option α)) (n : Nat) :
    (padTo v n).length = max v.length n := by
  unfold padTo
  split <;> simp <;> omega

theorem padTo_getElem?_lt (v : List (Option α)) (n i : Nat) (h : i < v.length) :
    (padTo v n)[i]? = v[i]? := by
  unfold padTo
  split
  · exact List.getElem?_append_left h
  · rfl

theorem padTo_getElem?_pad (v : List (Option α)) (n i : Nat)
    (h1 : v.length ≤ i) (h2 : i < n) :
    (padTo v n)[i]? = some none := by
  unfold padTo
  split
  · rw [List.getElem?_append_right h1, List.getElem?_replicate]
    simp
    omega
  · omega

/-- The shared shape of every positional write: grow the vector to `n`, then
overwrite position `i`. -/
theorem padTo_set_spec (v : List (Option α)) (n i : Nat) (x : Option α) (hi : i < n) :
    ((padTo v n).set i x).length = max v.length n ∧
    ((padTo v n).set i x)[i]? = some x ∧
    (∀ j, j ≠ i → j < v.length → ((padTo v n).set i x)[j]? = v[j]?) ∧
    (∀ j, j ≠ i → v.length ≤ j → j < n → ((padTo v n).set i x)[j]? = some none) := by
  have hlen : i < (padTo v n).length := by
    rw [padTo_length]
    omega
  refine ⟨?_, ?_, ?_, ?_⟩
  · rw [List.length_set, padTo_length]
  · exact List.getElem?_set_self hlen
  · intro j hj hjv
    rw [List.getElem?_set_ne (fun h => hj h.symm)]
    exact padTo_getElem?_lt v n j hjv
  · intro j hj hjv hjn
    rw [List.getElem?_set_ne (fun h => hj h.symm)]
    exact padTo_getElem?_pad v n j hjv hjn

theorem toShort_eq_self (x : Int) (h0 : 0 ≤ x) (h1 : x ≤ 32767) : toShort x = x := by
  unfold toShort
  omega

/-! ## C6 — config constructor and shared-memory mode -/

/-- C6: `osrmc_config_construct` with an absent (null) base path produces a
config with shared-memory mode enabled; with a base path it derives the
storage configuration from that path and disables shared-memory mode.  No
error is produced in either case. -/
theorem config_construct_spec :
    ∀ (path : String) (errPtr : Bool) (slot : ErrorSlot),
      osrmc_config_construct none errPtr slot
        = (some { storage_config := none, use_shared_memory := true }, slot) ∧
      osrmc_config_construct (some path) errPtr slot
        = (some { storage_config := some path, use_shared_memory := false }, slot) := by
  intro path errPtr slot
  exact ⟨rfl, rfl⟩

/-! ## C7 — packed version and ABI compatibility -/

/-- C7: `osrmc_get_version` returns the packed 32-bit version value with the
major component in the high 16 bits and the minor component in the low
16 bits, and `osrmc_is_abi_compatible` returns true exactly when the major
component of the runtime version equals the header's major constant. -/
theorem version_spec :
    osrmc_get_version = OSRMC_VERSION ∧
    OSRMC_VERSION < 2 ^ 32 ∧
    OSRMC_VERSION / 2 ^ 16 = OSRMC_VERSION_MAJOR ∧
    OSRMC_VERSION % 2 ^ 16 = OSRMC_VERSION_MINOR ∧
    (osrmc_is_abi_compatible = true ↔
      osrmc_get_version / 2 ^ 16 = OSRMC_VERSION_MAJOR) := by
  refine ⟨rfl, by decide, by decide, by decide, ?_⟩
  constructor
  · intro _
    decide
  · intro _
    decide

/-! ## C9 — number-of-alternatives overwrites the alternatives flag -/

/-- C9: for route, match and trip, setting the number of alternatives stores
the count and overwrites the boolean alternatives flag with `count > 0`,
whatever the flag held before (the result does not depend on the prior
parameter state). -/
theorem set_number_of_alternatives_spec :
    ∀ (pr : RouteParameters) (pm : MatchParameters) (pt : TripParameters)
      (count : Nat) (errPtr : Bool) (slot : ErrorSlot),
      osrmc_route_params_set_number_of_alternatives (some pr) count errPtr slot
        = (some { alternatives := decide (count > 0), number_of_alternatives := count }, slot) ∧
      osrmc_match_params_set_number_of_alternatives (some pm) count errPtr slot
        = (some { alternatives := decide (count > 0), number_of_alternatives := count }, slot) ∧
      osrmc_trip_params_set_number_of_alternatives (some pt) count errPtr slot
        = (some { alternatives := decide (count > 0), number_of_alternatives := count }, slot) := by
  intro pr pm pt count errPtr slot
  exact ⟨rfl, rfl, rfl⟩

/-! ## C10 — unknown approach enumerators store "unset" without error -/

/-- C10: for a valid coordinate index, `osrmc_params_set_approach` with an
enumerator outside {curb, unrestricted, opposite} succeeds without touching
the error slot and stores the disengaged ("unset") optional at that position —
unlike `osrmc_params_set_snapping`, whose unknown enumerators produce an
`"InvalidSnapping"` record and leave the parameters unchanged. -/
theorem set_approach_unknown_enum_spec (p : BaseParameters) (i : Nat) (a s : Int)
    (slot : ErrorSlot)
    (hi : i < p.coordinates.length)
    (ha : a ≠ APPROACH_CURB ∧ a ≠ APPROACH_UNRESTRICTED ∧ a ≠ APPROACH_OPPOSITE)
    (hs : s ≠ SNAPPING_DEFAULT ∧ s ≠ SNAPPING_ANY) :
    (∃ q, osrmc_params_set_approach (some p) i a true slot = (some q, slot) ∧
      q.approaches[i]? = some none ∧
      q.coordinates = p.coordinates) ∧
    osrmc_params_set_snapping (some p) s true slot
      = (some p, some ⟨"InvalidSnapping", "Unknown snapping type"⟩) := by
  obtain ⟨ha0, ha1, ha2⟩ := ha
  obtain ⟨hs0, hs1⟩ := hs
  constructor
  · refine ⟨{ p with approaches := (padTo p.approaches p.coordinates.length).set i none },
      ?_, ?_, rfl⟩
    · simp [osrmc_params_set_approach, Nat.not_le.mpr hi, ha0, ha1, ha2]
    · exact (padTo_set_spec p.approaches p.coordinates.length i none hi).2.1
  · simp [osrmc_params_set_snapping, hs0, hs1, osrmc_set_error]

/-- Witness for C10 at a concrete input: one coordinate, index 0, approach
enumerator 7, snapping enumerator 9. -/
theorem set_approach_unknown_enum_spec_witness :
    (∃ q, osrmc_params_set_approach (some oneCoordParams) 0 7 true none = (some q, none) ∧
      q.approaches[0]? = some none ∧
      q.coordinates = oneCoordParams.coordinates) ∧
    osrmc_params_set_snapping (some oneCoordParams) 9 true none
      = (some oneCoordParams, some ⟨"InvalidSnapping", "Unknown snapping type"⟩) :=
  set_approach_unknown_enum_spec oneCoordParams 0 7 9 none (by decide)
    ⟨by decide, by decide, by decide⟩ ⟨by decide, by decide⟩

/-! ## C1 — positional per-coordinate setters -/

/-- C1: for `osrmc_params_set_radius`, `osrmc_params_set_bearing` and
`osrmc_params_set_hint` on a non-null handle with index `i`: if `i` is at or
beyond the coordinate count, the call records `"InvalidCoordinateIndex"` and
leaves the parameters (in particular the target vector) unchanged; otherwise
the target vector is extended to the coordinate count filled with "unset",
position `i` receives the new value — or "unset" when the caller passed the
sentinel (negative radius, negative bearing value or range, null hint) — and
every other position keeps its previous value (or the "unset" fill). -/
theorem positional_setters_spec (p : BaseParameters) (i : Nat) (radius : ℚ)
    (value range : Int) (hint : Hint) (slot : ErrorSlot) :
    (p.coordinates.length ≤ i →
      osrmc_params_set_radius (some p) i radius true slot
        = (some p, some ⟨"InvalidCoordinateIndex", "Radius index out of bounds"⟩) ∧
      osrmc_params_set_bearing (some p) i value range true slot
        = (some p, some ⟨"InvalidCoordinateIndex", "Bearing index out of bounds"⟩) ∧
      osrmc_params_set_hint (some p) i (some hint) true slot
        = (some p, some ⟨"InvalidCoordinateIndex", "Hint index out of bounds"⟩)) ∧
    (i < p.coordinates.length →
      (∃ q, osrmc_params_set_radius (some p) i radius true slot = (some q, slot) ∧
        q.coordinates = p.coordinates ∧
        q.radiuses.length = max p.radiuses.length p.coordinates.length ∧
        q.radiuses[i]? = some (if radius ≥ 0 then some radius else none) ∧
        (∀ j, j ≠ i → j < p.radiuses.length → q.radiuses[j]? = p.radiuses[j]?) ∧
        (∀ j, j ≠ i → p.radiuses.length ≤ j → j < p.coordinates.length →
          q.radiuses[j]? = some none)) ∧
      (∃ q, osrmc_params_set_bearing (some p) i value range true slot = (some q, slot) ∧
        q.coordinates = p.coordinates ∧
        q.bearings.length = max p.bearings.length p.coordinates.length ∧
        q.bearings[i]? = some (if value < 0 ∨ range < 0 then none
          else some ⟨toShort value, toShort range⟩) ∧
        (0 ≤ value → value ≤ 32767 → 0 ≤ range → range ≤ 32767 →
          q.bearings[i]? = some (some ⟨value, range⟩)) ∧
        (∀ j, j ≠ i → j < p.bearings.length → q.bearings[j]? = p.bearings[j]?) ∧
        (∀ j, j ≠ i → p.bearings.length ≤ j → j < p.coordinates.length →
          q.bearings[j]? = some none)) ∧
      (∃ q, osrmc_params_set_hint (some p) i (some hint) true slot = (some q, slot) ∧
        q.coordinates = p.coordinates ∧
        q.hints.length = max p.hints.length p.coordinates.length ∧
        q.hints[i]? = some (some hint) ∧
        (∀ j, j ≠ i → j < p.hints.length → q.hints[j]? = p.hints[j]?) ∧
        (∀ j, j ≠ i → p.hints.length ≤ j → j < p.coordinates.length →
          q.hints[j]? = some none)) ∧
      (∃ q, osrmc_params_set_hint (some p) i none true slot = (some q, slot) ∧
        q.hints[i]? = some none)) := by
  constructor
  · intro h
    refine ⟨?_, ?_, ?_⟩ <;>
      simp [osrmc_params_set_radius, osrmc_params_set_bearing, osrmc_params_set_hint,
        osrmc_set_error, h]
  · intro h
    have hn := Nat.not_le.mpr h
    refine ⟨?_, ?_, ?_, ?_⟩
    · by_cases hr : radius ≥ 0
      · refine ⟨{ p with radiuses := (padTo p.radiuses p.coordinates.length).set i (some radius) },
          ?_, rfl, ?_, ?_, ?_, ?_⟩
        · simp [osrmc_params_set_radius, hn, hr]
        · exact (padTo_set_spec p.radiuses p.coordinates.length i (some radius) h).1
        · rw [if_pos hr]
          exact (padTo_set_spec p.radiuses p.coordinates.length i (some radius) h).2.1
        · exact (padTo_set_spec p.radiuses p.coordinates.length i (some radius) h).2.2.1
        · exact (padTo_set_spec p.radiuses p.coordinates.length i (some radius) h).2.2.2
      · refine ⟨{ p with radiuses := (padTo p.radiuses p.coordinates.length).set i none },
          ?_, rfl, ?_, ?_, ?_, ?_⟩
        · simp [osrmc_params_set_radius, hn, hr]
        · exact (padTo_set_spec p.radiuses p.coordinates.length i none h).1
        · rw [if_neg hr]
          exact (padTo_set_spec p.radiuses p.coordinates.length i none h).2.1
        · exact (padTo_set_spec p.radiuses p.coordinates.length i none h).2.2.1
        · exact (padTo_set_spec p.radiuses p.coordinates.length i none h).2.2.2
    · by_cases hb : value < 0 ∨ range < 0
      · refine ⟨{ p with bearings := (padTo p.bearings p.coordinates.length).set i none },
          ?_, rfl, ?_, ?_, ?_, ?_, ?_⟩
        · simp [osrmc_params_set_bearing, hn, hb]
        · exact (padTo_set_spec p.bearings p.coordinates.length i none h).1
        · rw [if_pos hb]
          exact (padTo_set_spec p.bearings p.coordinates.length i none h).2.1
        · intro h0v _ h0r _
          exact absurd hb (by omega)
        · exact (padTo_set_spec p.bearings p.coordinates.length i none h).2.2.1
        · exact (padTo_set_spec p.bearings p.coordinates.length i none h).2.2.2
      · refine ⟨{ p with
              bearings := (padTo p.bearings p.coordinates.length).set i
                (some ⟨toShort value, toShort range⟩) },
            ?_, rfl, ?_, ?_, ?_, ?_, ?_⟩
        · simp [osrmc_params_set_bearing, hn, hb]
        · exact (padTo_set_spec p.bearings p.coordinates.length i
            (some ⟨toShort value, toShort range⟩) h).1
        · rw [if_neg hb]
          exact (padTo_set_spec p.bearings p.coordinates.length i
            (some ⟨toShort value, toShort range⟩) h).2.1
        · intro h0v h1v h0r h1r
          rw [(padTo_set_spec p.bearings p.coordinates.length i
              (some ⟨toShort value, toShort range⟩) h).2.1,
            toShort_eq_self value h0v h1v, toShort_eq_self range h0r h1r]
        · exact (padTo_set_spec p.bearings p.coordinates.length i
            (some ⟨toShort value, toShort range⟩) h).2.2.1
        · exact (padTo_set_spec p.bearings p.coordinates.length i
            (some ⟨toShort value, toShort range⟩) h).2.2.2
    · refine ⟨{ p with hints := (padTo p.hints p.coordinates.length).set i (some hint) },
        ?_, rfl, ?_, ?_, ?_, ?_⟩
      · simp [osrmc_params_set_hint, hn]
      · exact (padTo_set_spec p.hints p.coordinates.length i (some hint) h).1
      · exact (padTo_set_spec p.hints p.coordinates.length i (some hint) h).2.1
      · exact (padTo_set_spec p.hints p.coordinates.length i (some hint) h).2.2.1
      · exact (padTo_set_spec p.hints p.coordinates.length i (some hint) h).2.2.2
    · refine ⟨{ p with hints := (padTo p.hints p.coordinates.length).set i none }, ?_, ?_⟩
      · simp [osrmc_params_set_hint, hn]
      · exact (padTo_set_spec p.hints p.coordinates.length i none h).2.1

/-- Witness for C1 at concrete inputs: two coordinates; `set_bearing` at
index 5 fails `"InvalidCoordinateIndex"` without mutation, and `set_radius` at
index 1 stores the radius there. -/
theorem positional_setters_spec_witness :
    (osrmc_params_set_bearing (some twoCoordParams) 5 90 30 true none
      = (some twoCoordParams,
         some ⟨"InvalidCoordinateIndex", "Bearing index out of bounds"⟩)) ∧
    (∃ q, osrmc_params_set_radius (some twoCoordParams) 1 5 true none = (some q, none) ∧
      q.coordinates = twoCoordParams.coordinates ∧
      q.radiuses.length = max twoCoordParams.radiuses.length
        twoCoordParams.coordinates.length ∧
      q.radiuses[1]? = some (if (5 : ℚ) ≥ 0 then some 5 else none) ∧
      (∀ j, j ≠ 1 → j < twoCoordParams.radiuses.length →
        q.radiuses[j]? = twoCoordParams.radiuses[j]?) ∧
      (∀ j, j ≠ 1 → twoCoordParams.radiuses.length ≤ j →
        j < twoCoordParams.coordinates.length → q.radiuses[j]? = some none)) :=
  ⟨((positional_setters_spec twoCoordParams 5 5 90 30 "hintToken" none).1 (by decide)).2.1,
   ((positional_setters_spec twoCoordParams 1 5 90 30 "hintToken" none).2 (by decide)).1⟩

/-! ## C2 — the augmented coordinate append and vector parallelism -/

/-- Counterexample to C2 at a concrete input: on a fresh handle, append one
coordinate with the bare form, then append a second with the augmented form
passing radius 5 and bearing 90/30.  The new coordinate sits at index 1, but
the radius and bearing written by the call are stored at index 0 — the
vectors are left shorter than the coordinate sequence, not parallel to it. -/
theorem add_coordinate_with_counterexample :
    (osrmc_params_add_coordinate_with
        (osrmc_params_add_coordinate (some {}) 1 2 true none).1
        3 4 5 90 30 true none).1.map
      (fun q => (q.coordinates.length, q.radiuses, q.bearings))
    = some (2, [some 5], [some ⟨90, 30⟩]) ∧
    ((osrmc_params_add_coordinate_with
        (osrmc_params_add_coordinate (some {}) 1 2 true none).1
        3 4 5 90 30 true none).1.map (fun q => q.radiuses[1]?))
    = some none := by
  constructor <;> decide

/-- C2 as amended: `osrmc_params_add_coordinate_with` only appends one entry
to the end of the radius vector and one to the end of the bearing vector (it
extends no other per-coordinate vector and performs no padding), so the new
radius and bearing land at the index of the newly appended coordinate exactly
when each vector was already as long as the previous coordinate count — e.g.
when every earlier coordinate was appended with the augmented form. -/
theorem add_coordinate_with_parallel_spec (p : BaseParameters)
    (lon lat radius : ℚ) (bearing range : Int) (slot : ErrorSlot)
    (hr : p.radiuses.length = p.coordinates.length)
    (hb : p.bearings.length = p.coordinates.length) :
    ∃ q, osrmc_params_add_coordinate_with (some p) lon lat radius bearing range true slot
        = (some q, slot) ∧
      q.coordinates = p.coordinates ++ [⟨lon, lat⟩] ∧
      q.radiuses.length = q.coordinates.length ∧
      q.bearings.length = q.coordinates.length ∧
      q.radiuses[p.coordinates.length]? = some (some radius) ∧
      q.bearings[p.coordinates.length]? = some (some ⟨toShort bearing, toShort range⟩) ∧
      (∀ j, j < p.coordinates.length →
        q.radiuses[j]? = p.radiuses[j]? ∧ q.bearings[j]? = p.bearings[j]?) ∧
      q.approaches = p.approaches ∧ q.hints = p.hints := by
  refine ⟨{ p with
      coordinates := p.coordinates ++ [⟨lon, lat⟩],
      radiuses := p.radiuses ++ [some radius],
      bearings := p.bearings ++ [some ⟨toShort bearing, toShort range⟩] },
    rfl, rfl, ?_, ?_, ?_, ?_, ?_, rfl, rfl⟩
  · simp [hr]
  · simp [hb]
  · rw [← hr, List.getElem?_append_right (Nat.le_refl _)]
    simp
  · rw [← hb, List.getElem?_append_right (Nat.le_refl _)]
    simp
  · intro j hj
    constructor
    · exact List.getElem?_append_left (by omega)
    · exact List.getElem?_append_left (by omega)

/-- Witness for the amended C2 at a concrete input: a fresh handle (both
vectors empty, matching the empty coordinate list), one augmented append. -/
theorem add_coordinate_with_parallel_spec_witness :
    ∃ q, osrmc_params_add_coordinate_with (some {}) 3 4 5 90 30 true none
        = (some q, none) ∧
      q.coordinates = BaseParameters.coordinates {} ++ [⟨3, 4⟩] ∧
      q.radiuses.length = q.coordinates.length ∧
      q.bearings.length = q.coordinates.length ∧
      q.radiuses[(BaseParameters.coordinates {}).length]? = some (some 5) ∧
      q.bearings[(BaseParameters.coordinates {}).length]?
        = some (some ⟨toShort 90, toShort 30⟩) ∧
      (∀ j, j < (BaseParameters.coordinates {}).length →
        q.radiuses[j]? = (BaseParameters.radiuses {})[j]? ∧
        q.bearings[j]? = (BaseParameters.bearings {})[j]?) ∧
      q.approaches = BaseParameters.approaches {} ∧ q.hints = BaseParameters.hints {} :=
  add_coordinate_with_parallel_spec {} 3 4 5 90 30 none (by decide) (by decide)

/-! ## C3 — error translation in the service dispatchers -/

/-- Counterexample to C3 at a concrete input: a route dispatch on non-null
handles whose engine outcome is a non-ok status with the result union holding
a (non-document) builder produces the record
`("RouteError", "Request failed")` — the message is not the claimed
`"route request failed"`. -/
theorem service_fallback_message_counterexample :
    osrmc_route true true (.error, .flatbuffer {}) true none
      = (none, some ⟨"RouteError", "Request failed"⟩) ∧
    "Request failed" ≠ "route request failed" := by
  constructor
  · rfl
  · decide

/-- C3 as amended: on a non-ok engine status with non-null handles, if the
result union holds a structured document whose `code` and `message` fields are
strings, the error record's code is the document's code (`"Unknown"` when that
field is empty) and its message is the document's message; if the union does
not hold a structured document, the record carries the service-specific code
(`"RouteError"`, `"TableError"`, `"MatchError"`, `"NearestError"`,
`"TripError"`) with message `"Request failed"`, and the tile dispatcher the
code `"TileError"` with message `"Failed to generate tile"`.  In every case
the returned response handle is null. -/
theorem service_error_translation_spec (o : JsonObject) (code message : String)
    (result : ResultT) (slot : ErrorSlot)
    (hdoc : jsonIndex o "code" = .str code ∧ jsonIndex o "message" = .str message)
    (hnotdoc : ∀ o', result ≠ .json o') :
    (∀ name paramsNonNull,
      osrmc_service_helper true paramsNonNull (.error, .json o) name true slot
        = if paramsNonNull then
            (none, some ⟨if code = "" then "Unknown" else code, message⟩)
          else (none, some ⟨"InvalidArgument", "Params must not be null"⟩)) ∧
    osrmc_nearest true true (.error, result) true slot
      = (none, some ⟨"NearestError", "Request failed"⟩) ∧
    osrmc_route true true (.error, result) true slot
      = (none, some ⟨"RouteError", "Request failed"⟩) ∧
    osrmc_table true true (.error, result) true slot
      = (none, some ⟨"TableError", "Request failed"⟩) ∧
    osrmc_match true true (.error, result) true slot
      = (none, some ⟨"MatchError", "Request failed"⟩) ∧
    osrmc_trip true true (.error, result) true slot
      = (none, some ⟨"TripError", "Request failed"⟩) ∧
    osrmc_tile true true (.error, .json o) true slot
      = (none, some ⟨if code = "" then "Unknown" else code, message⟩) ∧
    osrmc_tile true true (.error, result) true slot
      = (none, some ⟨"TileError", "Failed to generate tile"⟩) := by
  obtain ⟨hc, hm⟩ := hdoc
  have hfb : ∀ name, osrmc_service_helper true true (.error, result) name true slot
      = (none, some ⟨name, "Request failed"⟩) := by
    intro name
    cases result with
    | json o2 => exact absurd rfl (hnotdoc o2)
    | flatbuffer b => simp [osrmc_service_helper, osrmc_set_error]
    | str s => simp [osrmc_service_helper, osrmc_set_error]
  refine ⟨?_, hfb "NearestError", hfb "RouteError", hfb "TableError", hfb "MatchError",
    hfb "TripError", ?_, ?_⟩
  · intro name paramsNonNull
    cases paramsNonNull with
    | false => rfl
    | true => simp [osrmc_service_helper, hc, hm, getJsonString, osrmc_set_error]
  · simp [osrmc_tile, hc, hm, getJsonString, osrmc_set_error]
  · cases result with
    | json o2 => exact absurd rfl (hnotdoc o2)
    | flatbuffer b => simp [osrmc_tile, osrmc_set_error]
    | str s => simp [osrmc_tile, osrmc_set_error]

/-- Witness for the amended C3 at a concrete input: a tile dispatch whose
engine outcome is a non-ok status with a structured error document. -/
theorem service_error_translation_spec_witness :
    osrmc_tile true true
        (.error, .json ⟨[("code", .str "NoSegment"), ("message", .str "boom")]⟩) true none
      = (none, some ⟨"NoSegment", "boom"⟩) := by
  have h := (service_error_translation_spec
    ⟨[("code", .str "NoSegment"), ("message", .str "boom")]⟩ "NoSegment" "boom"
    (.flatbuffer {}) none ⟨by decide, by decide⟩ (fun o' hx => nomatch hx)).2.2.2.2.2.2.1
  simpa using h

/-! ## C5 — FlatBuffer transfer -/

/-- C5: on a result union holding a finished builder the transfer helper hands
back a non-null data pointer, the data size and a non-null deleter: at start
offset 0 the whole raw buffer is handed over directly (not freed by the
helper); at a non-zero offset exactly the data portion — buffer size minus
offset — is copied and the raw buffer freed.  A wrong union alternative
yields an `"InvalidFormat"` record and an allocation failure on the copy path
a `"MemoryError"` record, with null data and zero size in both failure
cases. -/
theorem transfer_flatbuffer_helper_spec (b : FlatBufferBuilder) (o : JsonObject)
    (s : String) (allocOk : Bool) (slot : ErrorSlot) :
    (b.offset = 0 →
      osrmc_transfer_flatbuffer_helper (.flatbuffer b) allocOk true slot
        = ({ data := some b.buf, size := b.buf.length, deleter := some (),
             rawFreed := false }, emptyJson, slot)) ∧
    (b.offset ≠ 0 → allocOk = true →
      osrmc_transfer_flatbuffer_helper (.flatbuffer b) allocOk true slot
        = ({ data := some (b.buf.drop b.offset), size := b.buf.length - b.offset,
             deleter := some (), rawFreed := true }, emptyJson, slot) ∧
      (b.buf.drop b.offset).length = b.buf.length - b.offset) ∧
    (b.offset ≠ 0 → allocOk = false →
      osrmc_transfer_flatbuffer_helper (.flatbuffer b) allocOk true slot
        = ({ data := none, size := 0, deleter := none, rawFreed := true },
           .flatbuffer {},
           some ⟨"MemoryError", "Failed to allocate memory for FlatBuffer data"⟩)) ∧
    osrmc_transfer_flatbuffer_helper (.json o) allocOk true slot
      = ({ data := none, size := 0, deleter := none, rawFreed := false }, .json o,
         some ⟨"InvalidFormat", "Response is not in FlatBuffer format"⟩) ∧
    osrmc_transfer_flatbuffer_helper (.str s) allocOk true slot
      = ({ data := none, size := 0, deleter := none, rawFreed := false }, .str s,
         some ⟨"InvalidFormat", "Response is not in FlatBuffer format"⟩) := by
  refine ⟨?_, ?_, ?_, ?_, ?_⟩
  · intro h0
    simp [osrmc_transfer_flatbuffer_helper, h0]
  · intro h0 ha
    subst ha
    constructor
    · simp [osrmc_transfer_flatbuffer_helper, h0]
    · simp
  · intro h0 ha
    subst ha
    simp [osrmc_transfer_flatbuffer_helper, h0, osrmc_set_error]
  · simp [osrmc_transfer_flatbuffer_helper, osrmc_set_error]
  · simp [osrmc_transfer_flatbuffer_helper, osrmc_set_error]

/-- Witness for C5 at a concrete input: a builder whose raw buffer is
`[7, 8, 9]` with start offset 1, transferred with a succeeding allocation. -/
theorem transfer_flatbuffer_helper_spec_witness :
    osrmc_transfer_flatbuffer_helper (.flatbuffer ⟨[7, 8, 9], 1⟩) true true none
      = ({ data := some ([7, 8, 9].drop 1), size := [7, 8, 9].length - 1,
           deleter := some (), rawFreed := true }, emptyJson, none) ∧
    ([7, 8, 9].drop 1).length = [7, 8, 9].length - 1 :=
  (transfer_flatbuffer_helper_spec ⟨[7, 8, 9], 1⟩ ⟨[]⟩ "" true none).2.1
    (by decide) rfl

/-! ## C8 — the transfer is one-shot -/

/-- C8: a successful transfer resets the response's result union to an empty
structured document, so a second transfer call on the same non-null response
fails with an `"InvalidFormat"` record, a null data pointer and zero size. -/
theorem transfer_flatbuffer_one_shot (b : FlatBufferBuilder)
    (allocOk allocOk2 : Bool) (slot slot2 : ErrorSlot)
    (hok : b.offset = 0 ∨ allocOk = true) :
    ∃ out, osrmc_route_response_transfer_flatbuffer (some ⟨.flatbuffer b⟩) allocOk true slot
        = (some ⟨emptyJson⟩, out, slot) ∧
      out.data ≠ none ∧
      osrmc_route_response_transfer_flatbuffer (some ⟨emptyJson⟩) allocOk2 true slot2
        = (some ⟨emptyJson⟩,
           { data := none, size := 0, deleter := none, rawFreed := false },
           some ⟨"InvalidFormat", "Response is not in FlatBuffer format"⟩) := by
  have hsecond : osrmc_route_response_transfer_flatbuffer (some ⟨emptyJson⟩) allocOk2 true slot2
      = (some ⟨emptyJson⟩,
         { data := none, size := 0, deleter := none, rawFreed := false },
         some ⟨"InvalidFormat", "Response is not in FlatBuffer format"⟩) := by
    simp [osrmc_route_response_transfer_flatbuffer, osrmc_transfer_flatbuffer_helper,
      emptyJson, osrmc_set_error]
  by_cases h0 : b.offset = 0
  · refine ⟨{ data := some b.buf, size := b.buf.length, deleter := some (), rawFreed := false },
      ?_, by simp, hsecond⟩
    simp [osrmc_route_response_transfer_flatbuffer, osrmc_transfer_flatbuffer_helper, h0]
  · have ha : allocOk = true := hok.resolve_left h0
    subst ha
    refine ⟨{ data := some (b.buf.drop b.offset), size := b.buf.length - b.offset, deleter := some (), rawFreed := true },
      ?_, by simp, hsecond⟩
    simp [osrmc_route_response_transfer_flatbuffer, osrmc_transfer_flatbuffer_helper, h0]

/-- Witness for C8 at a concrete input: a builder with raw buffer `[1, 2]` at
offset 0. -/
theorem transfer_flatbuffer_one_shot_witness :
    ∃ out, osrmc_route_response_transfer_flatbuffer
          (some ⟨.flatbuffer ⟨[1, 2], 0⟩⟩) false true none
        = (some ⟨emptyJson⟩, out, none) ∧
      out.data ≠ none ∧
      osrmc_route_response_transfer_flatbuffer (some ⟨emptyJson⟩) false true none
        = (some ⟨emptyJson⟩,
           { data := none, size := 0, deleter := none, rawFreed := false },
           some ⟨"InvalidFormat", "Response is not in FlatBuffer format"⟩) :=
  transfer_flatbuffer_one_shot ⟨[1, 2], 0⟩ false false none none (Or.inl rfl)

/-! ## C4 — the error out-parameter is written only on failure -/

/-- C4: across the modelled entry points taking an error out-parameter, a
successful call returns the caller's error slot exactly as it was, and only a
failing call stores a (new) record through it. -/
theorem error_out_param_frame (p : BaseParameters) (pr : RouteParameters)
    (pm : MatchParameters) (pt : TripParameters) (i : Nat) (lon lat radius : ℚ)
    (value range a s : Int) (hint : Option String) (count : Nat)
    (path : Option String) (result : ResultT) (b : FlatBufferBuilder)
    (name tile : String) (allocOk : Bool) (slot : ErrorSlot) :
    -- successful calls leave the slot untouched
    (osrmc_params_add_coordinate (some p) lon lat true slot).2 = slot ∧
    (osrmc_params_add_coordinate_with (some p) lon lat radius value range true slot).2
      = slot ∧
    (i < p.coordinates.length →
      (osrmc_params_set_radius (some p) i radius true slot).2 = slot ∧
      (osrmc_params_set_bearing (some p) i value range true slot).2 = slot ∧
      (osrmc_params_set_hint (some p) i hint true slot).2 = slot ∧
      (osrmc_params_set_approach (some p) i a true slot).2 = slot) ∧
    (s = SNAPPING_DEFAULT ∨ s = SNAPPING_ANY →
      (osrmc_params_set_snapping (some p) s true slot).2 = slot) ∧
    (osrmc_route_params_set_number_of_alternatives (some pr) count true slot).2 = slot ∧
    (osrmc_match_params_set_number_of_alternatives (some pm) count true slot).2 = slot ∧
    (osrmc_trip_params_set_number_of_alternatives (some pt) count true slot).2 = slot ∧
    (osrmc_config_construct path true slot).2 = slot ∧
    (osrmc_service_helper true true (.ok, result) name true slot).2 = slot ∧
    (osrmc_tile true true (.ok, .str tile) true slot).2 = slot ∧
    (b.offset = 0 ∨ allocOk = true →
      (osrmc_transfer_flatbuffer_helper (.flatbuffer b) allocOk true slot).2.2 = slot) ∧
    -- failing calls store a record
    (∃ r, (osrmc_params_add_coordinate none lon lat true slot).2 = some r) ∧
    (p.coordinates.length ≤ i →
      (∃ r, (osrmc_params_set_radius (some p) i radius true slot).2 = some r) ∧
      (∃ r, (osrmc_params_set_bearing (some p) i value range true slot).2 = some r) ∧
      (∃ r, (osrmc_params_set_hint (some p) i hint true slot).2 = some r) ∧
      (∃ r, (osrmc_params_set_approach (some p) i a true slot).2 = some r)) ∧
    (s ≠ SNAPPING_DEFAULT → s ≠ SNAPPING_ANY →
      ∃ r, (osrmc_params_set_snapping (some p) s true slot).2 = some r) ∧
    (∃ r, (osrmc_service_helper true true (.error, result) name true slot).2 = some r) ∧
    (∃ r, (osrmc_transfer_flatbuffer_helper (.json ⟨[]⟩) allocOk true slot).2.2 = some r) := by
  refine ⟨rfl, rfl, ?_, ?_, rfl, rfl, rfl, ?_, rfl, rfl, ?_, ?_, ?_, ?_, ?_, ?_⟩
  · intro h
    have hn := Nat.not_le.mpr h
    refine ⟨?_, ?_, ?_, ?_⟩
    · by_cases hr : radius ≥ 0 <;> simp [osrmc_params_set_radius, hn, hr]
    · by_cases hb : value < 0 ∨ range < 0 <;> simp [osrmc_params_set_bearing, hn, hb]
    · cases hint with
      | none => simp [osrmc_params_set_hint, hn]
      | some h0 => simp [osrmc_params_set_hint, hn]
    · simp [osrmc_params_set_approach, hn]
  · intro hs
    cases hs with
    | inl h => simp [osrmc_params_set_snapping, h]
    | inr h =>
      subst h
      simp [osrmc_params_set_snapping, SNAPPING_ANY, SNAPPING_DEFAULT]
  · cases path <;> rfl
  · intro h
    cases h with
    | inl h0 => simp [osrmc_transfer_flatbuffer_helper, h0]
    | inr ha =>
      subst ha
      by_cases h0 : b.offset = 0 <;> simp [osrmc_transfer_flatbuffer_helper, h0]
  · exact ⟨_, rfl⟩
  · intro h
    refine ⟨⟨⟨"InvalidCoordinateIndex", "Radius index out of bounds"⟩, ?_⟩,
      ⟨⟨"InvalidCoordinateIndex", "Bearing index out of bounds"⟩, ?_⟩,
      ⟨⟨"InvalidCoordinateIndex", "Hint index out of bounds"⟩, ?_⟩,
      ⟨⟨"InvalidCoordinateIndex", "Approach index out of bounds"⟩, ?_⟩⟩ <;>
      simp [osrmc_params_set_radius, osrmc_params_set_bearing, osrmc_params_set_hint,
        osrmc_params_set_approach, osrmc_set_error, h]
  · intro h0 h1
    simp [osrmc_params_set_snapping, h0, h1, osrmc_set_error]
  · cases result with
    | json o =>
      cases hc : getJsonString (jsonIndex o "code") with
      | none =>
        exact ⟨⟨name, "Request failed"⟩, by simp [osrmc_service_helper, hc, osrmc_set_error]⟩
      | some c =>
        cases hm : getJsonString (jsonIndex o "message") with
        | none =>
          exact ⟨⟨name, "Request failed"⟩,
            by simp [osrmc_service_helper, hc, hm, osrmc_set_error]⟩
        | some m =>
          exact ⟨⟨if c = "" then "Unknown" else c, m⟩,
            by simp [osrmc_service_helper, hc, hm, osrmc_set_error]⟩
    | flatbuffer b2 =>
      exact ⟨⟨name, "Request failed"⟩, by simp [osrmc_service_helper, osrmc_set_error]⟩
    | str s2 =>
      exact ⟨⟨name, "Request failed"⟩, by simp [osrmc_service_helper, osrmc_set_error]⟩
  · exact ⟨⟨"InvalidFormat", "Response is not in FlatBuffer format"⟩,
      by simp [osrmc_transfer_flatbuffer_helper, osrmc_set_error]⟩

/-- Witness for C4 at concrete inputs: a successful radius write at index 0 of
a one-coordinate handle leaves an empty error slot empty, and the same call at
index 3 stores a record. -/
theorem error_out_param_frame_witness :
    (osrmc_params_set_radius (some oneCoordParams) 0 5 true none).2 = none ∧
    (∃ r, (osrmc_params_set_radius (some oneCoordParams) 3 5 true none).2 = some r) := by
  have h1 := error_out_param_frame oneCoordParams {} {} {} 0 13 52 5 90 30 0 0
    (some "token") 2 none (.str "tile") {} "RouteError" "tile" true none
  have h2 := error_out_param_frame oneCoordParams {} {} {} 3 13 52 5 90 30 0 0
    (some "token") 2 none (.str "tile") {} "RouteError" "tile" true none
  exact ⟨(h1.2.2.1 (by decide)).1, ((h2.2.2.2.2.2.2.2.2.2.2.2.2.1 (by decide)).1)⟩
